import Mathlib

/-!
Shallow embedding of `src/_states/profile.py` (salt-osx): the `installed`
and `absent` state functions.  Each capability call (`__salt__['profile.*']`,
`__salt__['temp.file']`, the temp-file write) is recorded as an `Event` in a
trace, so that claims of the form "capability X is never invoked on this
path" become decidable statements about the returned trace.  The `__opts__
['test']` flag is passed explicitly as `test`; `__salt__` is passed
explicitly as a `Capabilities` record of pure functions.
-/

namespace SaltOSX

/-- Keyword arguments passed to the state function (description, displayname,
organization, removaldisallowed, content, ...), modelled as an association
list of opaque values. -/
abbrev Kwargs := List (String × String)

/-- Result of `__salt__['profile.validate'](name, content)`: a dict with keys
`installed`, `old_payload`, `new_payload`. -/
structure ValidationResult where
  installed : Bool
  old_payload : Option String
  new_payload : String
deriving Repr, DecidableEq

/-- The `result` field of a Salt state return dict: `True`, `False`, or
`None` (the dry-run "would change" value). -/
inductive TriState where
  | success
  | failure
  | wouldChange
deriving Repr, DecidableEq

/-- A value of the `changes` dict: the Python code stores either a bare
string (`'need to make profile'`), a dict with keys `'Old Profile'` /
`'New Profile'`, or a dict with keys `'old'` / `'new'`. -/
inductive ChangeEntry where
  | msg (s : String)
  | profiles (oldProfile : Option String) (newProfile : String)
  | oldNew (o n : String)
deriving Repr, DecidableEq

/-- The state return dict `ret = {'name': ..., 'result': ..., 'changes': ...,
'comment': ...}`. -/
structure Ret where
  name : String
  result : TriState
  changes : List (String × ChangeEntry)
  comment : String
deriving Repr, DecidableEq

/-- The external capability functions reached through `__salt__`, modelled as
pure functions. -/
structure Capabilities where
  profileExists : String → Bool
  generate : String → Kwargs → String
  validate : String → String → ValidationResult
  tempFile : String → String → String
  install : String → Bool
  remove : String → Bool

/-- One observable external action performed by a state function. -/
inductive Event where
  | existsCall (id : String)
  | generateCall (id : String) (kwargs : Kwargs)
  | validateCall (id : String) (content : String)
  | tempFileCall (suffix ns : String)
  | fileWrite (path : String) (content : String)
  | installCall (path : String)
  | removeCall (id : String)
deriving Repr, DecidableEq

/-- `installed(name, force=None, **kwargs)` from `src/_states/profile.py`,
returning the state dict together with the trace of external calls. -/
def installed (name : String) (force : Option Bool) (kwargs : Kwargs)
    (caps : Capabilities) (test : Bool) : Ret × List Event :=
  let ex := caps.profileExists name
  let content := caps.generate name kwargs
  let valid := caps.validate name content
  let tr0 := [Event.existsCall name, Event.generateCall name kwargs,
              Event.validateCall name content]
  if ex && valid.installed then
    ({ name := name, result := .success, changes := [],
       comment := "Profile identifier \"" ++ name ++ "\", already installed." },
     tr0)
  else
    let mcpath := caps.tempFile ".mobileconfig" "salt"
    let tr1 := tr0 ++ [Event.tempFileCall ".mobileconfig" "salt",
                       Event.fileWrite mcpath content]
    if test then
      ({ name := name, result := .wouldChange,
         changes := [(name, ChangeEntry.msg "need to make profile")],
         comment := "New profile would have been generated, property list follows: "
                      ++ content },
       tr1)
    else
      let success := caps.install mcpath
      let tr2 := tr1 ++ [Event.installCall mcpath]
      if success then
        ({ name := name, result := .success,
           changes := [(name, ChangeEntry.profiles valid.old_payload
                                valid.new_payload)],
           comment := "Profile \"" ++ name ++ "\", installed successfully." },
         tr2)
      else
        ({ name := name, result := .failure, changes := [],
           comment := "Failed to install profile with identifier: \"" ++ name
                        ++ "\"" },
         tr2)

/-- `absent(name)` from `src/_states/profile.py`, returning the state dict
together with the trace of external calls. -/
def absent (name : String) (caps : Capabilities) (test : Bool) :
    Ret × List Event :=
  let ex := caps.profileExists name
  let tr0 := [Event.existsCall name]
  if !ex then
    ({ name := name, result := .success, changes := [],
       comment := "Profile is already absent" },
     tr0)
  else if test then
    ({ name := name, result := .wouldChange, changes := [],
       comment := "Profile with identifier: " ++ name
                    ++ " would have been removed." },
     tr0)
  else
    let success := caps.remove name
    let tr1 := tr0 ++ [Event.removeCall name]
    if success then
      ({ name := name, result := .success,
         changes := [(name, ChangeEntry.oldNew "Installed" "Removed")],
         comment := "Profile with identifier: " ++ name
                      ++ " successfully removed" },
       tr1)
    else
      ({ name := name, result := .failure, changes := [],
         comment := "Failed to remove profile with identifier: " ++ name },
       tr1)

/-- Whether a trace contains a call to the `profile.install` capability. -/
def invokesInstall (tr : List Event) : Bool :=
  tr.any fun e => match e with
    | .installCall _ => true
    | _ => false

/-- Whether a trace contains a call to the `profile.remove` capability. -/
def invokesRemove (tr : List Event) : Bool :=
  tr.any fun e => match e with
    | .removeCall _ => true
    | _ => false

/-- Whether a trace contains a call to the `temp.file` capability. -/
def invokesTempFile (tr : List Event) : Bool :=
  tr.any fun e => match e with
    | .tempFileCall _ _ => true
    | _ => false

/-- Whether a trace contains any mutating action (install, remove, or a
filesystem write). -/
def invokesMutation (tr : List Event) : Bool :=
  tr.any fun e => match e with
    | .installCall _ => true
    | .removeCall _ => true
    | .fileWrite _ _ => true
    | _ => false

/-- Whether a trace contains a call to the `profile.generate` capability. -/
def isGenerate (e : Event) : Bool :=
  match e with
  | .generateCall _ _ => true
  | _ => false

/-- `startsWithChars pat l`: `pat` is an initial segment of `l`. -/
def startsWithChars : List Char → List Char → Bool
  | [], _ => true
  | _ :: _, [] => false
  | p :: ps, c :: cs => p == c && startsWithChars ps cs

/-- `hasSubChars l pat`: `pat` occurs contiguously somewhere in `l`. -/
def hasSubChars : List Char → List Char → Bool
  | l, pat =>
    startsWithChars pat l ||
      match l with
      | [] => false
      | _ :: rest => hasSubChars rest pat

/-- `strContains s pat`: `pat` occurs as a contiguous substring of `s`. -/
def strContains (s pat : String) : Bool :=
  hasSubChars s.data pat.data

/-- Concrete capability set used to instantiate the theorems below:
`ex` = whether the profile exists, `inst` = what `validate` reports for
`installed`, `okInstall` / `okRemove` = success of the mutating calls. -/
def mkCaps (ex inst okInstall okRemove : Bool) : Capabilities where
  profileExists := fun _ => ex
  generate := fun _ _ => "payload-bytes"
  validate := fun _ c =>
    { installed := inst, old_payload := some "old-bytes", new_payload := c }
  tempFile := fun _ _ => "/tmp/tmpabc123.mobileconfig"
  install := fun _ => okInstall
  remove := fun _ => okRemove

/-- A string with a nonempty left part stays nonempty under append. -/
theorem str_append_ne_empty (s t : String) (h : s ≠ "") : s ++ t ≠ "" := by
  intro he
  apply h
  have hd : (s ++ t).data = ("" : String).data := congrArg String.data he
  rw [String.data_append] at hd
  rcases List.append_eq_nil.mp hd with ⟨hs, _⟩
  cases s
  simp_all

/-- C1: when `profile.exists` returns true and `profile.validate` reports
`installed = true`, `installed` returns a success report with empty changes
and the "already installed" comment, and neither `profile.install`,
`temp.file`, nor any mutating action appears in the trace. -/
theorem installed_already_short_circuit (name : String) (force : Option Bool)
    (kwargs : Kwargs) (caps : Capabilities) (test : Bool)
    (hex : caps.profileExists name = true)
    (hin : (caps.validate name (caps.generate name kwargs)).installed = true) :
    (installed name force kwargs caps test).1 =
      { name := name, result := TriState.success, changes := [],
        comment := "Profile identifier \"" ++ name
                     ++ "\", already installed." } ∧
    invokesInstall (installed name force kwargs caps test).2 = false ∧
    invokesTempFile (installed name force kwargs caps test).2 = false ∧
    invokesMutation (installed name force kwargs caps test).2 = false := by
  simp [installed, hex, hin, invokesInstall, invokesTempFile, invokesMutation]

/-- Closed instance of C1: concrete capabilities with the profile present and
valid; the comment literally contains "already installed". -/
theorem installed_already_short_circuit_witness :
    (mkCaps true true true true).profileExists "com.example.pref" = true ∧
    ((mkCaps true true true true).validate "com.example.pref"
        ((mkCaps true true true true).generate "com.example.pref" [])).installed
      = true ∧
    ((installed "com.example.pref" none [] (mkCaps true true true true) false).1
        = { name := "com.example.pref", result := TriState.success,
            changes := [],
            comment := "Profile identifier \"" ++ "com.example.pref"
                         ++ "\", already installed." } ∧
      invokesInstall (installed "com.example.pref" none []
          (mkCaps true true true true) false).2 = false ∧
      invokesTempFile (installed "com.example.pref" none []
          (mkCaps true true true true) false).2 = false ∧
      invokesMutation (installed "com.example.pref" none []
          (mkCaps true true true true) false).2 = false) ∧
    strContains
      (installed "com.example.pref" none [] (mkCaps true true true true)
          false).1.comment "already installed" = true :=
  ⟨rfl, rfl,
   installed_already_short_circuit "com.example.pref" none []
     (mkCaps true true true true) false rfl rfl,
   by decide⟩

/-- C2: with the dry-run flag set, neither `profile.install` nor
`profile.remove` is ever invoked by either state function, and whenever a
real change would have been needed (short-circuit not taken for `installed`;
profile present for `absent`) the report's result is the would-change value
`None`. -/
theorem dry_run_purity (name : String) (force : Option Bool) (kwargs : Kwargs)
    (caps : Capabilities) :
    invokesInstall (installed name force kwargs caps true).2 = false ∧
    invokesRemove (installed name force kwargs caps true).2 = false ∧
    invokesInstall (absent name caps true).2 = false ∧
    invokesRemove (absent name caps true).2 = false ∧
    ((caps.profileExists name
        && (caps.validate name (caps.generate name kwargs)).installed) = false →
      (installed name force kwargs caps true).1.result = TriState.wouldChange) ∧
    (caps.profileExists name = true →
      (absent name caps true).1.result = TriState.wouldChange) := by
  refine ⟨?_, ?_, ?_, ?_, ?_, ?_⟩
  · cases h : (caps.profileExists name
        && (caps.validate name (caps.generate name kwargs)).installed) <;>
      simp [installed, h, invokesInstall]
  · cases h : (caps.profileExists name
        && (caps.validate name (caps.generate name kwargs)).installed) <;>
      simp [installed, h, invokesRemove]
  · cases h : caps.profileExists name <;> simp [absent, h, invokesInstall]
  · cases h : caps.profileExists name <;> simp [absent, h, invokesRemove]
  · intro h; simp [installed, h]
  · intro h; simp [absent, h]

/-- Closed instance of C2: a pending install and a pending removal under
dry-run, with the mutating capabilities never invoked. -/
theorem dry_run_purity_witness :
    invokesInstall (installed "com.example.pref" none []
        (mkCaps false false true true) true).2 = false ∧
    invokesRemove (absent "com.example.pref" (mkCaps true false true true)
        true).2 = false ∧
    (installed "com.example.pref" none [] (mkCaps false false true true)
        true).1.result = TriState.wouldChange ∧
    (absent "com.example.pref" (mkCaps true false true true) true).1.result
      = TriState.wouldChange :=
  ⟨(dry_run_purity "com.example.pref" none []
      (mkCaps false false true true)).1,
   (dry_run_purity "com.example.pref" none []
      (mkCaps true false true true)).2.2.2.1,
   (dry_run_purity "com.example.pref" none []
      (mkCaps false false true true)).2.2.2.2.1 rfl,
   (dry_run_purity "com.example.pref" none []
      (mkCaps true false true true)).2.2.2.2.2 rfl⟩

/-- C3: when the mutating capability reports failure (`profile.install`
returns false in `installed`, reached past the short-circuit with the test
flag off; `profile.remove` returns false in `absent`), the report has
result `False`, empty changes and a failure comment, and the trace ends at
that single mutating call — nothing further is attempted. -/
theorem mutation_failure_terminal (name : String) (force : Option Bool)
    (kwargs : Kwargs) (caps : Capabilities) :
    ((caps.profileExists name
        && (caps.validate name (caps.generate name kwargs)).installed) = false →
     caps.install (caps.tempFile ".mobileconfig" "salt") = false →
     (installed name force kwargs caps false).1 =
       { name := name, result := TriState.failure, changes := [],
         comment := "Failed to install profile with identifier: \"" ++ name
                      ++ "\"" } ∧
     (installed name force kwargs caps false).2 =
       [Event.existsCall name, Event.generateCall name kwargs,
        Event.validateCall name (caps.generate name kwargs),
        Event.tempFileCall ".mobileconfig" "salt",
        Event.fileWrite (caps.tempFile ".mobileconfig" "salt")
          (caps.generate name kwargs),
        Event.installCall (caps.tempFile ".mobileconfig" "salt")]) ∧
    (caps.profileExists name = true → caps.remove name = false →
     (absent name caps false).1 =
       { name := name, result := TriState.failure, changes := [],
         comment := "Failed to remove profile with identifier: " ++ name } ∧
     (absent name caps false).2 =
       [Event.existsCall name, Event.removeCall name]) := by
  constructor
  · intro h hf
    simp [installed, h, hf]
  · intro h hf
    simp [absent, h, hf]

/-- Closed instance of C3: failing install and failing remove at concrete
inputs. -/
theorem mutation_failure_terminal_witness :
    ((mkCaps false false false false).profileExists "com.example.pref"
        && ((mkCaps false false false false).validate "com.example.pref"
            ((mkCaps false false false false).generate "com.example.pref"
              [])).installed) = false ∧
    (mkCaps false false false false).install
      ((mkCaps false false false false).tempFile ".mobileconfig" "salt")
      = false ∧
    (installed "com.example.pref" none [] (mkCaps false false false false)
        false).1.result = TriState.failure ∧
    (installed "com.example.pref" none [] (mkCaps false false false false)
        false).1.changes = [] ∧
    (absent "com.example.pref" (mkCaps true false false false)
        false).1.result = TriState.failure :=
  ⟨rfl, rfl,
   by rw [((mutation_failure_terminal "com.example.pref" none []
        (mkCaps false false false false)).1 rfl rfl).1],
   by rw [((mutation_failure_terminal "com.example.pref" none []
        (mkCaps false false false false)).1 rfl rfl).1],
   by rw [((mutation_failure_terminal "com.example.pref" none []
        (mkCaps true false false false)).2 rfl rfl).1]⟩

/-- C4: past the short-circuit with the test flag off, when
`profile.install` returns true the report is a success whose changes map
pairs the identifier with exactly the `old_payload` / `new_payload` values
returned by `profile.validate`, under a comment containing "installed
successfully". -/
theorem installed_success_changes (name : String) (force : Option Bool)
    (kwargs : Kwargs) (caps : Capabilities)
    (h : (caps.profileExists name
        && (caps.validate name (caps.generate name kwargs)).installed) = false)
    (hok : caps.install (caps.tempFile ".mobileconfig" "salt") = true) :
    (installed name force kwargs caps false).1 =
      { name := name, result := TriState.success,
        changes := [(name, ChangeEntry.profiles
          (caps.validate name (caps.generate name kwargs)).old_payload
          (caps.validate name (caps.generate name kwargs)).new_payload)],
        comment := "Profile \"" ++ name ++ "\", installed successfully." } := by
  simp [installed, h, hok]

/-- Closed instance of C4: a successful fresh install records old and new
payloads from `validate`, and the comment contains "installed successfully". -/
theorem installed_success_changes_witness :
    ((mkCaps false false true true).profileExists "com.example.pref"
        && ((mkCaps false false true true).validate "com.example.pref"
            ((mkCaps false false true true).generate "com.example.pref"
              [])).installed) = false ∧
    (mkCaps false false true true).install
      ((mkCaps false false true true).tempFile ".mobileconfig" "salt")
      = true ∧
    (installed "com.example.pref" none [] (mkCaps false false true true)
        false).1 =
      { name := "com.example.pref", result := TriState.success,
        changes := [("com.example.pref", ChangeEntry.profiles
          ((mkCaps false false true true).validate "com.example.pref"
            ((mkCaps false false true true).generate "com.example.pref"
              [])).old_payload
          ((mkCaps false false true true).validate "com.example.pref"
            ((mkCaps false false true true).generate "com.example.pref"
              [])).new_payload)],
        comment := "Profile \"" ++ "com.example.pref"
                     ++ "\", installed successfully." } ∧
    strContains (installed "com.example.pref" none []
        (mkCaps false false true true) false).1.comment
      "installed successfully" = true :=
  ⟨rfl, rfl,
   installed_success_changes "com.example.pref" none []
     (mkCaps false false true true) rfl rfl,
   by decide⟩

/-- C5: in a pending dry run, `installed` returns a changes map keyed by the
identifier (marked pending) and a comment embedding the generated content,
while `absent` returns an empty changes map with a pending-removal comment —
the two dry-run paths are asymmetric. -/
theorem dry_run_changes_asymmetry (name : String) (force : Option Bool)
    (kwargs : Kwargs) (caps : Capabilities)
    (h : (caps.profileExists name
        && (caps.validate name (caps.generate name kwargs)).installed) = false)
    (hex : caps.profileExists name = true) :
    (installed name force kwargs caps true).1.changes =
      [(name, ChangeEntry.msg "need to make profile")] ∧
    (installed name force kwargs caps true).1.comment =
      "New profile would have been generated, property list follows: "
        ++ caps.generate name kwargs ∧
    (absent name caps true).1.changes = [] ∧
    (absent name caps true).1.comment =
      "Profile with identifier: " ++ name ++ " would have been removed." := by
  have hin : (caps.validate name (caps.generate name kwargs)).installed
      = false := by
    cases hv : (caps.validate name (caps.generate name kwargs)).installed
    · rfl
    · rw [hex, hv] at h; simp at h
  refine ⟨?_, ?_, ?_, ?_⟩ <;> simp [installed, absent, hex, hin]

/-- Closed instance of C5: the two dry-run paths at a concrete input where a
change is pending for both operations. -/
theorem dry_run_changes_asymmetry_witness :
    ((mkCaps true false true true).profileExists "com.example.pref"
        && ((mkCaps true false true true).validate "com.example.pref"
            ((mkCaps true false true true).generate "com.example.pref"
              [])).installed) = false ∧
    (mkCaps true false true true).profileExists "com.example.pref" = true ∧
    ((installed "com.example.pref" none [] (mkCaps true false true true)
        true).1.changes =
      [("com.example.pref", ChangeEntry.msg "need to make profile")] ∧
    (installed "com.example.pref" none [] (mkCaps true false true true)
        true).1.comment =
      "New profile would have been generated, property list follows: "
        ++ (mkCaps true false true true).generate "com.example.pref" [] ∧
    (absent "com.example.pref" (mkCaps true false true true) true).1.changes
      = [] ∧
    (absent "com.example.pref" (mkCaps true false true true) true).1.comment =
      "Profile with identifier: " ++ "com.example.pref"
        ++ " would have been removed.") :=
  ⟨rfl, rfl,
   dry_run_changes_asymmetry "com.example.pref" none []
     (mkCaps true false true true) rfl rfl⟩

/-- C6: `profile.generate` is called exactly once per `installed` invocation,
unconditionally and before the short-circuit decision — the trace always
starts with the exists / generate / validate calls — and `profile.validate`
receives exactly the content that `generate` returned. -/
theorem generate_once_before_decision (name : String) (force : Option Bool)
    (kwargs : Kwargs) (caps : Capabilities) (test : Bool) :
    ((installed name force kwargs caps test).2.countP
        (fun e => isGenerate e)) = 1 ∧
    (installed name force kwargs caps test).2.take 3 =
      [Event.existsCall name, Event.generateCall name kwargs,
       Event.validateCall name (caps.generate name kwargs)] := by
  cases h : (caps.profileExists name
      && (caps.validate name (caps.generate name kwargs)).installed) <;>
    cases test <;>
    cases hi : caps.install (caps.tempFile ".mobileconfig" "salt") <;>
    simp [installed, h, hi, isGenerate, List.countP_cons, List.countP_append]

/-- C7: the `force` argument plays no role in `installed` — two invocations
differing only in `force` return the identical report and trace. -/
theorem force_irrelevant (name : String) (f g : Option Bool) (kwargs : Kwargs)
    (caps : Capabilities) (test : Bool) :
    installed name f kwargs caps test = installed name g kwargs caps test :=
  rfl

/-- C8: when `profile.exists` returns false, `absent` reports success with
empty changes and the "already absent" comment, and `profile.remove` is
never invoked. -/
theorem absent_already_absent (name : String) (caps : Capabilities)
    (test : Bool) (hex : caps.profileExists name = false) :
    (absent name caps test).1 =
      { name := name, result := TriState.success, changes := [],
        comment := "Profile is already absent" } ∧
    invokesRemove (absent name caps test).2 = false := by
  simp [absent, hex, invokesRemove]

/-- Closed instance of C8: `absent` on a nonexistent identifier. -/
theorem absent_already_absent_witness :
    (mkCaps false false true true).profileExists "com.example.pref" = false ∧
    ((absent "com.example.pref" (mkCaps false false true true) false).1 =
      { name := "com.example.pref", result := TriState.success, changes := [],
        comment := "Profile is already absent" } ∧
    invokesRemove (absent "com.example.pref" (mkCaps false false true true)
        false).2 = false) :=
  ⟨rfl, absent_already_absent "com.example.pref" (mkCaps false false true true)
    false rfl⟩

/-- C9: on every return path of both state functions the report's `name`
field is the input identifier unchanged and the `comment` field is a
non-empty string. -/
theorem report_name_comment_invariant (name : String) (force : Option Bool)
    (kwargs : Kwargs) (caps : Capabilities) (test : Bool) :
    (installed name force kwargs caps test).1.name = name ∧
    (installed name force kwargs caps test).1.comment ≠ "" ∧
    (absent name caps test).1.name = name ∧
    (absent name caps test).1.comment ≠ "" := by
  cases hex : caps.profileExists name <;>
  cases hin : (caps.validate name (caps.generate name kwargs)).installed <;>
  cases test <;>
  cases hi : caps.install (caps.tempFile ".mobileconfig" "salt") <;>
  cases hr : caps.remove name <;>
  refine ⟨?_, ?_, ?_, ?_⟩ <;>
  simp [installed, absent, hex, hin, hi, hr] <;>
  first
    | decide
    | exact str_append_ne_empty _ _ (by decide)
    | exact str_append_ne_empty _ _ (str_append_ne_empty _ _ (by decide))

/-- C10: past the short-circuit, `temp.file` is called and the generated
content is written to the returned path before the test flag is consulted:
the trace prefix is the same for both test-flag values, and in particular a
dry run still performs the temp-file creation and the file write. -/
theorem temp_write_precedes_dry_run_check (name : String) (force : Option Bool)
    (kwargs : Kwargs) (caps : Capabilities) (test : Bool)
    (h : (caps.profileExists name
        && (caps.validate name (caps.generate name kwargs)).installed)
      = false) :
    (installed name force kwargs caps test).2.take 5 =
      [Event.existsCall name, Event.generateCall name kwargs,
       Event.validateCall name (caps.generate name kwargs),
       Event.tempFileCall ".mobileconfig" "salt",
       Event.fileWrite (caps.tempFile ".mobileconfig" "salt")
         (caps.generate name kwargs)] ∧
    invokesTempFile (installed name force kwargs caps true).2 = true ∧
    invokesMutation (installed name force kwargs caps true).2 = true := by
  cases test <;>
    cases hi : caps.install (caps.tempFile ".mobileconfig" "salt") <;>
    simp [installed, h, hi, invokesTempFile, invokesMutation]

/-- Closed instance of C10: with the dry-run flag set and the profile not
installed, the temp file is created and written. -/
theorem temp_write_precedes_dry_run_check_witness :
    ((mkCaps false false true true).profileExists "com.example.pref"
        && ((mkCaps false false true true).validate "com.example.pref"
            ((mkCaps false false true true).generate "com.example.pref"
              [])).installed) = false ∧
    ((installed "com.example.pref" none [] (mkCaps false false true true)
        true).2.take 5 =
      [Event.existsCall "com.example.pref",
       Event.generateCall "com.example.pref" [],
       Event.validateCall "com.example.pref"
         ((mkCaps false false true true).generate "com.example.pref" []),
       Event.tempFileCall ".mobileconfig" "salt",
       Event.fileWrite ((mkCaps false false true true).tempFile ".mobileconfig"
           "salt")
         ((mkCaps false false true true).generate "com.example.pref" [])] ∧
    invokesTempFile (installed "com.example.pref" none []
        (mkCaps false false true true) true).2 = true ∧
    invokesMutation (installed "com.example.pref" none []
        (mkCaps false false true true) true).2 = true) :=
  ⟨rfl, temp_write_precedes_dry_run_check "com.example.pref" none []
    (mkCaps false false true true) true rfl⟩

end SaltOSX
